import Mathlib

/-!
Verification of the CalAIM AI/NLP microservice core
(`packages/ai-service/main.py`): the mock entity recognizer, the domain
mapping engine, the confidence aggregators, the Document AI confidence
computation, the Pub/Sub listener's acknowledgement behaviour, the
asynchronous job-processing function and the `/extract-entities`
threshold handling, shallowly embedded in Lean.  Python floats are
modelled as rationals (every constant appearing in the source is an
exact decimal), Python strings as Lean strings, and Python's substring
test `needle in hay` as an executable scan over the character lists.
-/

/-- The rational denoted by a decimal constant of the source, given as
numerator over a power-of-ten denominator (e.g. the source's `0.92` is
`decimal 92 100`).  Built with `mkRat` so that it normalizes and every
comparison on it is kernel-reducible. -/
def decimal (n d : ℕ) : ℚ := mkRat n d

/-- Python's substring test `needle in hay`, over character lists:
true iff `needle` occurs contiguously inside `hay` (an empty needle is
contained in everything, as in Python). -/
def containsChars (hay needle : List Char) : Bool :=
  needle.isPrefixOf hay ||
    match hay with
    | [] => false
    | _ :: rest => containsChars rest needle

/-- Python's `text.lower()` restricted to the character list of a string
(every string in the service is ASCII, where `Char.toLower` and
`str.lower` agree). -/
def lowerData (s : String) : List Char :=
  s.data.map Char.toLower

/-- `ExtractedEntity` (pydantic model in `main.py`): a typed,
confidence-scored span of clinical meaning.  `type` is a plain string in
the source, `confidence` a float modelled as a rational; optional coding
metadata as in the source.  The `position` dict is modelled as an
optional `(start, end)` pair of naturals. -/
structure ExtractedEntity where
  type : String
  text : String
  confidence : ℚ
  snomedCode : Option String := none
  icd10Code : Option String := none
  umlsCui : Option String := none
  position : Option (ℕ × ℕ) := none
deriving DecidableEq

/-- A value of a domain suggestion's `content` dict: a string or a list
of strings (the only value shapes `map_entities_to_domains` produces). -/
inductive ContentValue where
  | s (v : String)
  | strings (vs : List String)
deriving DecidableEq

/-- `DomainSuggestion` (pydantic model in `main.py`); `content` is the
Python dict modelled as an association list in insertion order. -/
structure DomainSuggestion where
  domainType : String
  content : List (String × ContentValue)
  confidence : ℚ
  sources : Option (List String) := none
  entities : Option (List ExtractedEntity) := none
deriving DecidableEq

/-- Lookup in a `content` association list: Python's `content[key]`. -/
def content_value (content : List (String × ContentValue)) (key : String) :
    Option ContentValue :=
  (content.find? (fun p => p.1 == key)).map (fun p => p.2)

/-- `settings.ENTITY_CONFIDENCE_WEIGHTS.get(t, 0.7)`: the per-type
confidence weight dict of `Settings` (main.py:77-88), with default 0.7
for a type not in the dict. -/
def entity_confidence_weights_get (t : String) : ℚ :=
  if t == "Diagnosis" then 1
  else if t == "Symptom" then decimal 9 10
  else if t == "Medication" then decimal 85 100
  else if t == "Risk_Behavior" then decimal 95 100
  else if t == "Social_Context" then decimal 8 10
  else if t == "Trauma_Event" then decimal 9 10
  else if t == "Strength" then decimal 7 10
  else decimal 7 10

/-- `aggregate_entity_confidence` (main.py:508-530): 0.0 for an empty
list, otherwise the arithmetic mean of the type-weighted confidences. -/
def aggregate_entity_confidence (entities : List ExtractedEntity) : ℚ :=
  if entities.isEmpty then 0
  else
    let weighted_scores :=
      entities.map (fun e => e.confidence * entity_confidence_weights_get e.type)
    if weighted_scores.isEmpty then 0
    else weighted_scores.sum / (weighted_scores.length : ℚ)

/-- `calculate_domain_confidence` (main.py:1336-1357): 0.5 for an empty
list, otherwise the mean of the type-weighted confidences plus a count
boost `min(0.1, 0.02 * n)`, capped at 0.98. -/
def calculate_domain_confidence (entities : List ExtractedEntity) : ℚ :=
  if entities.isEmpty then decimal 5 10
  else
    let weighted_confidences :=
      entities.map (fun e => e.confidence * entity_confidence_weights_get e.type)
    if weighted_confidences.isEmpty then decimal 5 10
    else
      let base_confidence := weighted_confidences.sum / (weighted_confidences.length : ℚ)
      let entity_count_boost := min (decimal 1 10) ((entities.length : ℚ) * decimal 2 100)
      min (decimal 98 100) (base_confidence + entity_count_boost)

/-- `generate_description` (main.py:1359-1375). -/
def generate_description (diagnoses symptoms : List ExtractedEntity) : String :=
  let description := "Patient presents with "
  let description :=
    if !diagnoses.isEmpty then
      let d := description ++ String.intercalate ", " (diagnoses.map (fun e => e.text))
      if !symptoms.isEmpty then
        d ++ ", with symptoms including "
          ++ String.intercalate ", " (symptoms.map (fun e => e.text))
      else d
    else if !symptoms.isEmpty then
      description ++ "symptoms including "
        ++ String.intercalate ", " (symptoms.map (fun e => e.text))
    else
      description ++ "unspecified concerns"
  description ++ "."

/-- `determine_severity` (main.py:1377-1396): SEVERE when some Diagnosis
text contains "severe", "major" or "acute" (case-insensitively), or at
least three entities have confidence above 0.9 and a Risk_Behavior is
present; MODERATE when at least two entities have confidence above 0.9
or a Risk_Behavior is present; MILD otherwise. -/
def determine_severity (entities : List ExtractedEntity) : String :=
  let high_confidence_count :=
    (entities.filter (fun e => decide (decimal 9 10 < e.confidence))).length
  let has_severe_condition :=
    entities.any (fun e =>
      e.type == "Diagnosis" &&
        (["severe", "major", "acute"].any
          (fun kw => containsChars (lowerData e.text) kw.data)))
  let has_risk_behavior := entities.any (fun e => e.type == "Risk_Behavior")
  if has_severe_condition || (decide (3 ≤ high_confidence_count) && has_risk_behavior)
  then "SEVERE"
  else if decide (2 ≤ high_confidence_count) || has_risk_behavior then "MODERATE"
  else "MILD"

/-- The mock Major Depressive Disorder entity (main.py:1112-1121). -/
def mock_mdd : ExtractedEntity :=
  { type := "Diagnosis", text := "Major Depressive Disorder", confidence := decimal 92 100,
    snomedCode := some "370143000", icd10Code := some "F32.9" }

/-- The mock Generalized Anxiety Disorder entity (main.py:1124-1133). -/
def mock_gad : ExtractedEntity :=
  { type := "Diagnosis", text := "Generalized Anxiety Disorder", confidence := decimal 89 100,
    snomedCode := some "48694002", icd10Code := some "F41.1" }

/-- The mock Insomnia entity (main.py:1136-1144). -/
def mock_insomnia : ExtractedEntity :=
  { type := "Symptom", text := "Insomnia", confidence := decimal 87 100,
    snomedCode := some "193462001" }

/-- The mock substance-use entity (main.py:1147-1154). -/
def mock_substance_use : ExtractedEntity :=
  { type := "Risk_Behavior", text := "Substance use", confidence := decimal 82 100 }

/-- The mock housing-instability entity (main.py:1157-1164). -/
def mock_housing : ExtractedEntity :=
  { type := "Social_Context", text := "Housing instability", confidence := decimal 85 100 }

/-- The mock trauma entity (main.py:1167-1174). -/
def mock_trauma : ExtractedEntity :=
  { type := "Trauma_Event", text := "History of trauma", confidence := decimal 79 100 }

/-- The mock suicidal-ideation entity (main.py:1177-1184). -/
def mock_suicidal : ExtractedEntity :=
  { type := "Risk_Behavior", text := "Suicidal ideation", confidence := decimal 78 100 }

/-- The mock Sertraline medication entity (main.py:1187-1194). -/
def mock_sertraline : ExtractedEntity :=
  { type := "Medication", text := "Sertraline 50mg daily", confidence := decimal 92 100 }

/-- The fallback Note entity (main.py:1200-1207). -/
def mock_note : ExtractedEntity :=
  { type := "Note", text := "No specific entities detected", confidence := decimal 7 10 }

/-- The keyword-accumulation phase of `generate_mock_entities`
(main.py:1107-1194), before the confidence filter: one entity per
matched keyword category, plus the Sertraline medication whenever a
Diagnosis entity was produced.  This phase does not depend on the
threshold. -/
def mock_keyword_entities (text : String) : List ExtractedEntity :=
  let lower := lowerData text
  let entities : List ExtractedEntity := []
  let entities :=
    if containsChars lower "depress".data then entities ++ [mock_mdd] else entities
  let entities :=
    if ["anxiet", "anxious", "worry"].any (fun kw => containsChars lower kw.data)
    then entities ++ [mock_gad] else entities
  let entities :=
    if ["sleep", "insomnia"].any (fun kw => containsChars lower kw.data)
    then entities ++ [mock_insomnia] else entities
  let entities :=
    if ["alcohol", "drink", "substance", "drug"].any (fun kw => containsChars lower kw.data)
    then entities ++ [mock_substance_use] else entities
  let entities :=
    if ["home", "house", "housing", "homeless"].any (fun kw => containsChars lower kw.data)
    then entities ++ [mock_housing] else entities
  let entities :=
    if ["trauma", "abuse", "neglect"].any (fun kw => containsChars lower kw.data)
    then entities ++ [mock_trauma] else entities
  let entities :=
    if ["suicid", "harm", "ideation"].any (fun kw => containsChars lower kw.data)
    then entities ++ [mock_suicidal] else entities
  if entities.any (fun e => e.type == "Diagnosis") then entities ++ [mock_sertraline]
  else entities

/-- `generate_mock_entities` (main.py:1107-1209): the keyword entities,
filtered by `e.confidence >= confidence_threshold`, with the single Note
entity added afterwards when the filtered list is empty. -/
def generate_mock_entities (text : String) (confidence_threshold : ℚ := decimal 6 10) :
    List ExtractedEntity :=
  let entities :=
    (mock_keyword_entities text).filter
      (fun e => decide (confidence_threshold ≤ e.confidence))
  if entities.isEmpty then [mock_note] else entities

/-- The fallback PRESENTING_PROBLEM suggestion appended by
`map_entities_to_domains` when no domain triggered (main.py:1319-1332). -/
def fallback_presenting_problem : DomainSuggestion :=
  { domainType := "PRESENTING_PROBLEM",
    content :=
      [("description", ContentValue.s "Insufficient information to determine presenting problem"),
       ("severity", ContentValue.s "Unknown"),
       ("duration", ContentValue.s "Unknown"),
       ("impact", ContentValue.s "Unknown")],
    confidence := decimal 5 10,
    entities := some [] }

/-- The domain-triggering phase of `map_entities_to_domains`
(main.py:1213-1316): groups the entities by type and appends, in the
source's fixed program order, one suggestion per triggered domain.  The
conditional appends of the Python body are rendered as a concatenation
of conditional singleton lists, which produces the identical list. -/
def map_entities_to_domains_core (entities : List ExtractedEntity) : List DomainSuggestion :=
  let diagnoses := entities.filter (fun e => e.type == "Diagnosis")
  let symptoms := entities.filter (fun e => e.type == "Symptom")
  let medications := entities.filter (fun e => e.type == "Medication")
  let risk_behaviors := entities.filter (fun e => e.type == "Risk_Behavior")
  let social_contexts := entities.filter (fun e => e.type == "Social_Context")
  let trauma_events := entities.filter (fun e => e.type == "Trauma_Event")
  let strengths := entities.filter (fun e => e.type == "Strength")
  (if !diagnoses.isEmpty || !symptoms.isEmpty then
    [{ domainType := "PRESENTING_PROBLEM",
       content :=
         [("description", ContentValue.s (generate_description diagnoses symptoms)),
          ("severity", ContentValue.s (determine_severity entities)),
          ("duration", ContentValue.s "Unknown"),
          ("impact", ContentValue.s "Impacts daily functioning")],
       confidence := calculate_domain_confidence (diagnoses ++ symptoms),
       entities := some (diagnoses ++ symptoms) }]
   else []) ++
  (if !medications.isEmpty then
    [{ domainType := "BEHAVIORAL_HEALTH_HISTORY",
       content :=
         [("previousTreatment", ContentValue.s "Unknown"),
          ("medications", ContentValue.strings (medications.map (fun m => m.text))),
          ("hospitalizations", ContentValue.s "None documented")],
       confidence := calculate_domain_confidence medications,
       entities := some medications }]
   else []) ++
  (if !risk_behaviors.isEmpty then
    [{ domainType := "RISK_ASSESSMENT",
       content :=
         [("suicideRisk", ContentValue.s
            (if risk_behaviors.any (fun e => containsChars (lowerData e.text) "suicid".data)
             then "Present" else "Not documented")),
          ("homicideRisk", ContentValue.s "Not documented"),
          ("selfHarmHistory", ContentValue.s
            (if risk_behaviors.any (fun e => containsChars (lowerData e.text) "harm".data)
             then "Present" else "Not documented")),
          ("substanceUse", ContentValue.s
            (if risk_behaviors.any (fun e => containsChars (lowerData e.text) "substance".data)
             then "Present" else "Not documented"))],
       confidence := calculate_domain_confidence risk_behaviors,
       entities := some risk_behaviors }]
   else []) ++
  (if !social_contexts.isEmpty then
    [{ domainType := "SOCIAL_DETERMINANTS",
       content :=
         [("housing", ContentValue.s
            (if social_contexts.any (fun e => containsChars (lowerData e.text) "housing".data)
             then "Unstable" else "Unknown")),
          ("employment", ContentValue.s "Unknown"),
          ("education", ContentValue.s "Unknown"),
          ("transportation", ContentValue.s "Unknown"),
          ("socialSupport", ContentValue.s "Unknown")],
       confidence := calculate_domain_confidence social_contexts,
       entities := some social_contexts }]
   else []) ++
  (if !trauma_events.isEmpty then
    [{ domainType := "TRAUMA",
       content :=
         [("traumaHistory", ContentValue.s "Present"),
          ("traumaType", ContentValue.s "Unspecified"),
          ("traumaImpact", ContentValue.s "Impacts current functioning")],
       confidence := calculate_domain_confidence trauma_events,
       entities := some trauma_events }]
   else []) ++
  (if !strengths.isEmpty then
    [{ domainType := "STRENGTHS",
       content :=
         [("personalStrengths", ContentValue.strings (strengths.map (fun s => s.text))),
          ("supportSystems", ContentValue.s "Unknown"),
          ("coping", ContentValue.s "Unknown")],
       confidence := calculate_domain_confidence strengths,
       entities := some strengths }]
   else [])

/-- `map_entities_to_domains` (main.py:1211-1334): the triggered domain
suggestions, or the single fallback PRESENTING_PROBLEM suggestion when
no domain triggered. -/
def map_entities_to_domains (entities : List ExtractedEntity) : List DomainSuggestion :=
  let domains := map_entities_to_domains_core entities
  if domains.isEmpty then [fallback_presenting_problem] else domains

/-- `process_document_with_document_ai`'s overall-confidence computation
on the real backend path (main.py:387): the Python conditional
expression `sum(page.layout.confidence for page in document.pages) /
len(document.pages) if document.pages else 0.75`, as a function of the
per-page layout confidences. -/
def document_ai_overall_confidence (page_confidences : List ℚ) : ℚ :=
  if !page_confidences.isEmpty then
    page_confidences.sum / (page_confidences.length : ℚ)
  else decimal 75 100

/-- `settings.AI_CONFIDENCE_THRESHOLD` (main.py:74): default 0.6. -/
def AI_CONFIDENCE_THRESHOLD : ℚ := decimal 6 10

/-- Python's `x or default` for an optional float `x` (main.py:974:
`request.confidenceThreshold or settings.AI_CONFIDENCE_THRESHOLD`):
`None` and `0.0` are falsy, so both give the default. -/
def py_or_float (x : Option ℚ) (fallback : ℚ) : ℚ :=
  match x with
  | none => fallback
  | some v => if v = 0 then fallback else v

/-- The effective confidence threshold computed by the
`/extract-entities` endpoint (main.py:974) from the caller-supplied
`confidenceThreshold`. -/
def effective_confidence_threshold (requested : Option ℚ) : ℚ :=
  py_or_float requested AI_CONFIDENCE_THRESHOLD

/-- The `/extract-entities` endpoint on the mock path
(main.py:976-981): the mock recognizer at the effective threshold. -/
def extract_entities_endpoint_mock (text : String) (requested : Option ℚ) :
    List ExtractedEntity :=
  generate_mock_entities text (effective_confidence_threshold requested)

/-- The `/extract-entities` endpoint's post-filter on the real path
(main.py:990): `[e for e in entities if e.confidence >=
confidence_threshold]` at the effective threshold, as a function of the
entities the backend returned. -/
def extract_entities_endpoint_real (backend_entities : List ExtractedEntity)
    (requested : Option ℚ) : List ExtractedEntity :=
  backend_entities.filter
    (fun e => decide (effective_confidence_threshold requested ≤ e.confidence))

/-- An observable event of the Pub/Sub listener's message handler
(main.py:550-564) and of the job task it schedules. -/
inductive ListenerEvent where
  | messageParsed
  | processTaskScheduled
  | messageAcked
  | messageNacked
  | processReturned
deriving DecidableEq

/-- The events of one execution of the `callback(message)` handler
inside `start_pubsub_listener` (main.py:550-564), in program order.
When the message body parses, the handler schedules
`process_document_job` with `asyncio.create_task` (which only creates
the task: the coroutine has not run when `create_task` returns) and then
calls `message.ack()`; when any exception is raised inside the handler
(`json.loads` failing, task creation failing) the `except` branch calls
`message.nack()`. -/
def pubsub_callback_trace (parse_ok : Bool) : List ListenerEvent :=
  if parse_ok then
    [ListenerEvent.messageParsed, ListenerEvent.processTaskScheduled,
     ListenerEvent.messageAcked]
  else [ListenerEvent.messageNacked]

/-- The events of one message's handling including the scheduled job:
the created `process_document_job` task runs on the event loop only
after the synchronous `callback` body (and hence its `ack`) has
finished, so its return event follows the whole handler trace. -/
def pubsub_message_trace (parse_ok : Bool) : List ListenerEvent :=
  pubsub_callback_trace parse_ok ++
    (if parse_ok then [ListenerEvent.processReturned] else [])

/-- Index of the first occurrence of an event in a trace (length when
absent). -/
def event_index : List ListenerEvent → ListenerEvent → ℕ
  | [], _ => 0
  | x :: xs, e => if x = e then 0 else event_index xs e + 1

/-- The acknowledgement discipline the spec claims of the listener: an
`ack` happens only at a position strictly after `process()` has
returned. -/
def ack_only_after_process (trace : List ListenerEvent) : Prop :=
  ∀ i : Fin trace.length, trace.get i = ListenerEvent.messageAcked →
    ∃ j : Fin trace.length, (j : ℕ) < (i : ℕ) ∧
      trace.get j = ListenerEvent.processReturned

instance (trace : List ListenerEvent) : Decidable (ack_only_after_process trace) := by
  unfold ack_only_after_process; infer_instance

/-- The fields `process_document_job` reads from a Pub/Sub message body
(main.py:589-594), each a `data.get(...)` result. -/
structure PubSubJobData where
  jobId : Option String := none
  documentUri : Option String := none
  documentType : Option String := none
  documentId : Option String := none
  patientId : Option String := none
  referralId : Option String := none
  callbackUrl : Option String := none
deriving DecidableEq

/-- Python truthiness of an optional string (`all([...])` over
`data.get` results, and `if callback_url:`): `None` and `""` are
falsy. -/
def py_truthy_str (v : Option String) : Bool :=
  match v with
  | none => false
  | some s => !s.isEmpty

/-- A value of a callback payload dict sent by `send_callback`. -/
inductive CallbackValue where
  | s (v : String)
  | q (v : ℚ)
  | n (v : ℕ)
deriving DecidableEq

/-- The payload value for an optional string field the job data was
validated to hold. -/
def opt_str_value (v : Option String) : CallbackValue :=
  CallbackValue.s (v.getD "")

/-- What one invocation of `process_document_job` (main.py:582-649)
does, observably: the job-store status writes it performs, the callback
payloads it sends (via `send_callback`, which swallows its own errors),
and the exception it lets escape to its caller.  In the source, every
job-status update site is only a `TODO` comment (main.py:601-602, 616-620,
638-639), so no job-store write ever happens; the whole pipeline runs
inside `try/except Exception`, so no exception escapes. -/
structure ProcessJobOutcome where
  jobStoreWrites : List String
  callbacksSent : List (List (String × CallbackValue))
  raisedToCaller : Option String
deriving DecidableEq

/-- `all([job_id, document_uri, document_type, document_id, patient_id,
referral_id])` (main.py:596): Python truthiness of the six required
fields. -/
def pubsub_fields_valid (data : PubSubJobData) : Bool :=
  py_truthy_str data.jobId && py_truthy_str data.documentUri &&
    py_truthy_str data.documentType && py_truthy_str data.documentId &&
    py_truthy_str data.patientId && py_truthy_str data.referralId

/-- The FAILED-branch callback list of `process_document_job`
(main.py:641-649): sent only when the message carried a truthy
`callbackUrl`. -/
def failed_callbacks (data : PubSubJobData) (err : String) :
    List (List (String × CallbackValue)) :=
  if py_truthy_str data.callbackUrl then
    [[("jobId", opt_str_value data.jobId),
      ("status", CallbackValue.s "FAILED"),
      ("documentId", opt_str_value data.documentId),
      ("error", CallbackValue.s err)]]
  else []

/-- `process_document_job` (main.py:582-649), with the two fallible
collaborator calls (Document AI extraction and Healthcare NL entity
recognition) supplied as outcomes: validate the six required fields
(returning silently when one is missing), run
extraction → recognition → domain mapping → confidence aggregation, and
send the COMPLETED callback, or on any raised error the FAILED callback;
callbacks only when `callbackUrl` is truthy.  No job-store write occurs
(they are TODOs in the source) and no exception reaches the caller. -/
def process_document_job (data : PubSubJobData)
    (extraction : Except String (String × ℚ))
    (recognition : String → Except String (List ExtractedEntity)) :
    ProcessJobOutcome :=
  if !pubsub_fields_valid data then
    { jobStoreWrites := [], callbacksSent := [], raisedToCaller := none }
  else
    match extraction with
    | Except.error e =>
      { jobStoreWrites := [], callbacksSent := failed_callbacks data e,
        raisedToCaller := none }
    | Except.ok (text, _doc_confidence) =>
      match recognition text with
      | Except.error e =>
        { jobStoreWrites := [], callbacksSent := failed_callbacks data e,
          raisedToCaller := none }
      | Except.ok entities =>
        let domains := map_entities_to_domains entities
        let overall_confidence := aggregate_entity_confidence entities
        { jobStoreWrites := [],
          callbacksSent :=
            if py_truthy_str data.callbackUrl then
              [[("jobId", opt_str_value data.jobId),
                ("status", CallbackValue.s "COMPLETED"),
                ("documentId", opt_str_value data.documentId),
                ("confidenceScore", CallbackValue.q overall_confidence),
                ("entitiesCount", CallbackValue.n entities.length),
                ("domainsCount", CallbackValue.n domains.length)]]
            else [],
          raisedToCaller := none }

/-- The entity used to probe the real-path threshold filter: a
plausible backend entity whose confidence 0.5 lies below the default
threshold 0.6. -/
def low_confidence_probe : ExtractedEntity :=
  { type := "Symptom", text := "Mild fatigue", confidence := decimal 5 10 }

/-- Emptiness of a filtered list, as the negation of `any`. -/
theorem filter_isEmpty_eq_not_any (l : List α) (p : α → Bool) :
    (l.filter p).isEmpty = !(l.any p) := by
  induction l with
  | nil => rfl
  | cons a t ih =>
    cases h : p a <;> simp [List.filter_cons, h, ih]

/-- Claim C2 (counterexample): on the trace of a successfully parsed
message, the handler acknowledges at a position strictly before
`process_document_job` returns, so the claimed discipline "ack only
after process() has returned" is false of the code. -/
theorem claim_C2_counterexample_ack_before_process_returns :
    ¬ ack_only_after_process (pubsub_message_trace true) := by decide

/-- Claim C2 (amended): the handler acknowledges immediately after
scheduling `process()` as a background task — after the scheduling
event, but strictly before `process()` returns — and a fault raised
inside the handler before that point (a message that fails to parse)
results in a negative acknowledgement instead. -/
theorem claim_C2_ack_after_dispatch_nack_on_parse_failure :
    event_index (pubsub_message_trace true) ListenerEvent.processTaskScheduled <
      event_index (pubsub_message_trace true) ListenerEvent.messageAcked ∧
    event_index (pubsub_message_trace true) ListenerEvent.messageAcked <
      event_index (pubsub_message_trace true) ListenerEvent.processReturned ∧
    ListenerEvent.messageAcked ∈ pubsub_message_trace true ∧
    ListenerEvent.processReturned ∈ pubsub_message_trace true ∧
    pubsub_message_trace false = [ListenerEvent.messageNacked] := by decide

/-- The Pub/Sub message body used as the concrete failing input for
claim C7: all six required fields present and a callback URL supplied. -/
def job_data_example : PubSubJobData :=
  { jobId := some "job-1", documentUri := some "gs://referrals/doc-1.pdf",
    documentType := some "application/pdf", documentId := some "doc-1",
    patientId := some "patient-1", referralId := some "referral-1",
    callbackUrl := some "http://api.example/callback" }

/-- A recognition collaborator that fails on every text, as when the
Healthcare NL backend is unreachable. -/
def failing_recognition : String → Except String (List ExtractedEntity) :=
  fun _ => Except.error "Healthcare NL API extraction failed"

/-- Claim C7 (counterexample): when extraction fails on a fully
populated job message, `process_document_job` performs no job-store
write at all — in particular it does not record a FAILED status and
does not set `completedAt` (both update sites are TODO comments in the
source) — even though it does send the FAILED callback with an `error`
field and raises nothing. -/
theorem claim_C7_counterexample_no_job_store_write :
    (process_document_job job_data_example
        (Except.error "Document AI processing failed")
        failing_recognition).jobStoreWrites = [] ∧
    (process_document_job job_data_example
        (Except.error "Document AI processing failed")
        failing_recognition).callbacksSent =
      [[("jobId", CallbackValue.s "job-1"),
        ("status", CallbackValue.s "FAILED"),
        ("documentId", CallbackValue.s "doc-1"),
        ("error", CallbackValue.s "Document AI processing failed")]] ∧
    (process_document_job job_data_example
        (Except.error "Document AI processing failed")
        failing_recognition).raisedToCaller = none := by decide

/-- Claim C7 (amended): when any pipeline step raises, the job ends with
no exception propagating out of `process_document_job` and, whenever the
message carries a truthy callback URL and its required fields are
present, with exactly one FAILED callback carrying an `error` field; no
job-store write (no FAILED status, no `completedAt`) is performed — the
status-update sites are TODOs in the source. -/
theorem claim_C7_failure_callback_no_exception_no_write
    (data : PubSubJobData) (extraction : Except String (String × ℚ))
    (recognition : String → Except String (List ExtractedEntity)) (err : String)
    (hfail : extraction = Except.error err ∨
      ∃ tc : String × ℚ, extraction = Except.ok tc ∧
        recognition tc.1 = Except.error err) :
    (process_document_job data extraction recognition).raisedToCaller = none ∧
    (process_document_job data extraction recognition).jobStoreWrites = [] ∧
    (pubsub_fields_valid data = true → py_truthy_str data.callbackUrl = true →
      (process_document_job data extraction recognition).callbacksSent =
        [[("jobId", opt_str_value data.jobId),
          ("status", CallbackValue.s "FAILED"),
          ("documentId", opt_str_value data.documentId),
          ("error", CallbackValue.s err)]]) := by
  unfold process_document_job
  cases hv : pubsub_fields_valid data with
  | false => simp [hv]
  | true =>
    rcases hfail with hex | ⟨tc, hok, hrec⟩
    · subst hex
      simp [hv, failed_callbacks]
    · subst hok
      simp [hv, hrec, failed_callbacks]

/-- Claim C7 (witness): the amended theorem applied to the concrete job
message and a recognition failure. -/
theorem claim_C7_failure_witness :
    (process_document_job job_data_example
        (Except.ok ("Patient narrative", decimal 85 100))
        failing_recognition).raisedToCaller = none ∧
    (process_document_job job_data_example
        (Except.ok ("Patient narrative", decimal 85 100))
        failing_recognition).jobStoreWrites = [] ∧
    (pubsub_fields_valid job_data_example = true →
      py_truthy_str job_data_example.callbackUrl = true →
      (process_document_job job_data_example
          (Except.ok ("Patient narrative", decimal 85 100))
          failing_recognition).callbacksSent =
        [[("jobId", opt_str_value job_data_example.jobId),
          ("status", CallbackValue.s "FAILED"),
          ("documentId", opt_str_value job_data_example.documentId),
          ("error", CallbackValue.s "Healthcare NL API extraction failed")]]) :=
  claim_C7_failure_callback_no_exception_no_write job_data_example
    (Except.ok ("Patient narrative", decimal 85 100)) failing_recognition
    "Healthcare NL API extraction failed"
    (Or.inr ⟨("Patient narrative", decimal 85 100), rfl, rfl⟩)

/-- Claim C8: on the real extraction path the overall confidence is the
arithmetic mean of the per-page layout confidences — for a non-empty
page list the value times the page count is the sum of the page
confidences, with a provably non-zero denominator — and for zero pages
it is the constant 0.75, so the mean never divides by zero. -/
theorem claim_C8_document_ai_mean_and_zero_pages :
    document_ai_overall_confidence [] = decimal 75 100 ∧
    ∀ ps : List ℚ, ps ≠ [] →
      (ps.length : ℚ) ≠ 0 ∧
        document_ai_overall_confidence ps * (ps.length : ℚ) = ps.sum := by
  refine ⟨rfl, ?_⟩
  intro ps hps
  have hlen : (ps.length : ℚ) ≠ 0 := by
    exact_mod_cast Nat.pos_of_ne_zero (fun h => hps (List.length_eq_zero.mp h)) |>.ne'
  refine ⟨hlen, ?_⟩
  unfold document_ai_overall_confidence
  rw [if_pos]
  · exact div_mul_cancel₀ _ hlen
  · simp [List.isEmpty_iff, hps]

/-- Claim C8 (witness): the mean property at the concrete two-page list
[0.8, 0.7]. -/
theorem claim_C8_mean_witness :
    ([decimal 8 10, decimal 7 10] : List ℚ) ≠ [] ∧
    ((([decimal 8 10, decimal 7 10] : List ℚ).length : ℚ) ≠ 0 ∧
      document_ai_overall_confidence [decimal 8 10, decimal 7 10] *
          (([decimal 8 10, decimal 7 10] : List ℚ).length : ℚ) =
        ([decimal 8 10, decimal 7 10] : List ℚ).sum) :=
  ⟨by decide, claim_C8_document_ai_mean_and_zero_pages.2 _ (by decide)⟩

/-- Claim C9: a caller-supplied `confidenceThreshold` of exactly 0.0 is
falsy in `request.confidenceThreshold or settings.AI_CONFIDENCE_THRESHOLD`,
so the effective threshold silently becomes the configured default 0.6
rather than 0.0: the mock path behaves exactly as if no threshold had
been supplied, the effective threshold is never 0, and on the real path
an entity below the default (confidence 0.5) is filtered out even
though the caller asked for threshold 0. -/
theorem claim_C9_zero_threshold_treated_as_unset :
    effective_confidence_threshold (some 0) = AI_CONFIDENCE_THRESHOLD ∧
    AI_CONFIDENCE_THRESHOLD = decimal 6 10 ∧
    effective_confidence_threshold (some 0) ≠ 0 ∧
    (∀ text : String,
      extract_entities_endpoint_mock text (some 0) =
        extract_entities_endpoint_mock text none) ∧
    extract_entities_endpoint_real [low_confidence_probe] (some 0) = [] := by
  refine ⟨rfl, rfl, by decide, fun text => rfl, by decide⟩

/-- The claim's phrase "lists containing only entity types that trigger
no domain": no entity has one of the seven grouped types. -/
def triggers_no_domain (entities : List ExtractedEntity) : Bool :=
  entities.all (fun e =>
    !(e.type == "Diagnosis" || e.type == "Symptom" || e.type == "Medication" ||
      e.type == "Risk_Behavior" || e.type == "Social_Context" ||
      e.type == "Trauma_Event" || e.type == "Strength"))

/-- Claim C3: for every entity list, `map_entities_to_domains` returns a
non-empty list, and when no entity has a domain-triggering type it
returns exactly the one fallback PRESENTING_PROBLEM suggestion (fixed
low-information content, confidence 0.5). -/
theorem claim_C3_mapping_nonempty_with_fallback (es : List ExtractedEntity) :
    map_entities_to_domains es ≠ [] ∧
    (triggers_no_domain es = true →
      map_entities_to_domains es = [fallback_presenting_problem] ∧
        fallback_presenting_problem.confidence = decimal 5 10) := by
  constructor
  · unfold map_entities_to_domains
    cases h : (map_entities_to_domains_core es).isEmpty with
    | true => simp [h]
    | false =>
      simp only [h, Bool.false_eq_true, if_false]
      intro hnil
      rw [hnil] at h
      simp at h
  · intro h
    have hall : ∀ e ∈ es,
        (e.type == "Diagnosis") = false ∧ (e.type == "Symptom") = false ∧
        (e.type == "Medication") = false ∧ (e.type == "Risk_Behavior") = false ∧
        (e.type == "Social_Context") = false ∧ (e.type == "Trauma_Event") = false ∧
        (e.type == "Strength") = false := by
      intro e he
      have := List.all_eq_true.mp h e he
      simp only [Bool.not_eq_true', Bool.or_eq_false_iff] at this
      tauto
    have hfil : ∀ (t : String), (∀ e ∈ es, (e.type == t) = false) →
        es.filter (fun e => e.type == t) = [] := by
      intro t ht
      rw [List.filter_eq_nil_iff]
      intro e he
      simp [ht e he]
    have hd := hfil "Diagnosis" (fun e he => (hall e he).1)
    have hs := hfil "Symptom" (fun e he => (hall e he).2.1)
    have hm := hfil "Medication" (fun e he => (hall e he).2.2.1)
    have hr := hfil "Risk_Behavior" (fun e he => (hall e he).2.2.2.1)
    have hsc := hfil "Social_Context" (fun e he => (hall e he).2.2.2.2.1)
    have ht := hfil "Trauma_Event" (fun e he => (hall e he).2.2.2.2.2.1)
    have hst := hfil "Strength" (fun e he => (hall e he).2.2.2.2.2.2)
    refine ⟨?_, rfl⟩
    unfold map_entities_to_domains map_entities_to_domains_core
    simp [hd, hs, hm, hr, hsc, ht, hst]

/-- The trigger conditions the spec states for `mapToDomains`: the six
domain names in the fixed display order, each present exactly when an
entity of its qualifying trigger type is present.  Written from the
spec's words, to be compared with the embedding. -/
def expected_domain_types_base (es : List ExtractedEntity) : List String :=
  (if es.any (fun e => e.type == "Diagnosis") || es.any (fun e => e.type == "Symptom")
   then ["PRESENTING_PROBLEM"] else []) ++
  (if es.any (fun e => e.type == "Medication")
   then ["BEHAVIORAL_HEALTH_HISTORY"] else []) ++
  (if es.any (fun e => e.type == "Risk_Behavior")
   then ["RISK_ASSESSMENT"] else []) ++
  (if es.any (fun e => e.type == "Social_Context")
   then ["SOCIAL_DETERMINANTS"] else []) ++
  (if es.any (fun e => e.type == "Trauma_Event")
   then ["TRAUMA"] else []) ++
  (if es.any (fun e => e.type == "Strength")
   then ["STRENGTHS"] else [])

/-- The spec's expected domain order with its fallback: the triggered
domains, or the fallback PRESENTING_PROBLEM when none triggered. -/
def expected_domain_types (es : List ExtractedEntity) : List String :=
  if (expected_domain_types_base es).isEmpty then ["PRESENTING_PROBLEM"]
  else expected_domain_types_base es

/-- The domain types of the triggered suggestions, in order. -/
theorem core_domain_types (es : List ExtractedEntity) :
    (map_entities_to_domains_core es).map (fun d => d.domainType) =
      expected_domain_types_base es := by
  unfold map_entities_to_domains_core expected_domain_types_base
  simp only [filter_isEmpty_eq_not_any, Bool.not_not, List.map_append,
    apply_ite (List.map (fun d : DomainSuggestion => d.domainType)),
    List.map_cons, List.map_nil]

/-- Claim C4: the suggestions of `map_entities_to_domains` appear in the
fixed order PRESENTING_PROBLEM, BEHAVIORAL_HEALTH_HISTORY,
RISK_ASSESSMENT, SOCIAL_DETERMINANTS, TRAUMA, STRENGTHS, each present
exactly when an entity of its qualifying trigger type is present
(Diagnosis/Symptom, Medication, Risk_Behavior, Social_Context,
Trauma_Event, Strength respectively), except that the fallback
PRESENTING_PROBLEM appears when none trigger. -/
theorem claim_C4_domain_order_and_triggers (es : List ExtractedEntity) :
    (map_entities_to_domains es).map (fun d => d.domainType) =
      expected_domain_types es := by
  have hcore := core_domain_types es
  unfold map_entities_to_domains expected_domain_types
  cases h : (map_entities_to_domains_core es).isEmpty with
  | true =>
    have hnil : map_entities_to_domains_core es = [] := List.isEmpty_iff.mp h
    have hbase : expected_domain_types_base es = [] := by
      rw [← hcore, hnil]; rfl
    simp only [h, if_true, hbase]
    rfl
  | false =>
    have hbase : (expected_domain_types_base es).isEmpty = false := by
      rw [← hcore]
      cases hc : map_entities_to_domains_core es with
      | nil => rw [hc] at h; simp at h
      | cons a t => rfl
    simp only [h, hbase, Bool.false_eq_true, if_false]
    exact hcore

/-- Every weight of the `ENTITY_CONFIDENCE_WEIGHTS` dict, and the
default 0.7, is non-negative. -/
theorem entity_confidence_weights_get_nonneg (t : String) :
    0 ≤ entity_confidence_weights_get t := by
  unfold entity_confidence_weights_get
  split_ifs <;> decide

/-- Claim C5: for every entity list whose confidences lie in `[0,1]`,
the count-boosted per-domain confidence lies in `[0, 0.98]`: never
negative, and never above the cap no matter how many high-confidence
entities are supplied. -/
theorem claim_C5_domain_confidence_bounds (es : List ExtractedEntity)
    (h : ∀ e ∈ es, 0 ≤ e.confidence ∧ e.confidence ≤ 1) :
    0 ≤ calculate_domain_confidence es ∧
      calculate_domain_confidence es ≤ decimal 98 100 := by
  cases es with
  | nil => exact ⟨by decide, by decide⟩
  | cons a t =>
    have hval : calculate_domain_confidence (a :: t) =
        min (decimal 98 100)
          (((a :: t).map (fun e => e.confidence * entity_confidence_weights_get e.type)).sum /
              ((((a :: t).map (fun e => e.confidence * entity_confidence_weights_get e.type)).length : ℕ) : ℚ) +
            min (decimal 1 10) (((a :: t).length : ℚ) * decimal 2 100)) := rfl
    rw [hval]
    constructor
    · refine le_min (by decide) (add_nonneg ?_ ?_)
      · refine div_nonneg (List.sum_nonneg ?_) (Nat.cast_nonneg _)
        intro x hx
        obtain ⟨e, he, rfl⟩ := List.mem_map.mp hx
        exact mul_nonneg (h e he).1 (entity_confidence_weights_get_nonneg e.type)
      · exact le_min (by decide) (mul_nonneg (Nat.cast_nonneg _) (by decide))
    · exact min_le_left _ _

/-- Claim C5 (witness): the bounds at the concrete singleton list
holding the mock depression diagnosis (confidence 0.92). -/
theorem claim_C5_bounds_witness :
    (∀ e ∈ [mock_mdd], 0 ≤ e.confidence ∧ e.confidence ≤ 1) ∧
    (0 ≤ calculate_domain_confidence [mock_mdd] ∧
      calculate_domain_confidence [mock_mdd] ≤ decimal 98 100) :=
  ⟨by decide, claim_C5_domain_confidence_bounds [mock_mdd] (by decide)⟩

/-- Claim C6: the confidence aggregator returns 0.0 on the empty list,
and its value is invariant under any permutation of the entity list. -/
theorem claim_C6_aggregate_empty_and_perm_invariant :
    aggregate_entity_confidence [] = 0 ∧
    ∀ l1 l2 : List ExtractedEntity, l1.Perm l2 →
      aggregate_entity_confidence l1 = aggregate_entity_confidence l2 := by
  refine ⟨rfl, ?_⟩
  intro l1 l2 hp
  have hsum :=
    (hp.map (fun e => e.confidence * entity_confidence_weights_get e.type)).sum_eq
  have hlen :=
    (hp.map (fun e => e.confidence * entity_confidence_weights_get e.type)).length_eq
  cases l1 with
  | nil =>
    have : l2 = [] := hp.symm.eq_nil
    rw [this]
  | cons a t =>
    cases l2 with
    | nil => exact absurd hp.eq_nil (by simp)
    | cons b u =>
      show (List.map _ (a :: t)).sum / ((List.map _ (a :: t)).length : ℚ) =
        (List.map _ (b :: u)).sum / ((List.map _ (b :: u)).length : ℚ)
      rw [hsum, hlen]

/-- Claim C6 (witness): the aggregate agrees on the concrete two-entity
list and its swap. -/
theorem claim_C6_perm_witness :
    ([mock_gad, mock_mdd] : List ExtractedEntity).Perm [mock_mdd, mock_gad] ∧
    aggregate_entity_confidence [mock_gad, mock_mdd] =
      aggregate_entity_confidence [mock_mdd, mock_gad] :=
  ⟨List.Perm.swap mock_mdd mock_gad [],
   claim_C6_aggregate_empty_and_perm_invariant.2 _ _
     (List.Perm.swap mock_mdd mock_gad [])⟩

/-- Claim C10: in the mock recognizer the threshold filter runs before
the Note fallback is added, so the result is non-empty for every text
and threshold, and when no keyword entity survives the filter the
single returned Note entity has confidence 0.7 even when 0.7 is below
the caller's threshold — the output can contain an entity whose
confidence is under the requested threshold. -/
theorem claim_C10_note_fallback_ignores_threshold (text : String) (thr : ℚ) :
    generate_mock_entities text thr ≠ [] ∧
    ((mock_keyword_entities text).filter (fun e => decide (thr ≤ e.confidence)) = [] →
      generate_mock_entities text thr = [mock_note] ∧
      mock_note.confidence = decimal 7 10 ∧
      (decimal 7 10 < thr →
        ∃ e ∈ generate_mock_entities text thr, e.confidence < thr)) := by
  constructor
  · unfold generate_mock_entities
    cases h : ((mock_keyword_entities text).filter
        (fun e => decide (thr ≤ e.confidence))).isEmpty with
    | true => simp [h]
    | false =>
      simp only [h, Bool.false_eq_true, if_false]
      intro hnil
      rw [hnil] at h
      simp at h
  · intro hf
    have hres : generate_mock_entities text thr = [mock_note] := by
      unfold generate_mock_entities
      rw [hf]
      rfl
    refine ⟨hres, rfl, ?_⟩
    intro hlt
    refine ⟨mock_note, ?_, hlt⟩
    rw [hres]
    exact List.mem_singleton.mpr rfl

/-- The text of Scenario A, containing the phrases "depression and
anxiety" and "insomnia" and no other mock keyword. -/
def scenario_a_text : String :=
  "Patient presents with depression and anxiety. Patient also reports insomnia."

/-- Claim C1 (counterexample): on the Scenario A text at the default
threshold 0.6, the mock recognizer and domain mapper do produce a
PRESENTING_PROBLEM suggestion followed by a BEHAVIORAL_HEALTH_HISTORY
suggestion, but the PRESENTING_PROBLEM severity is "SEVERE", not
"MODERATE" as claimed: the diagnosis text "Major Depressive Disorder"
contains "major", which trips the severe-condition branch of
`determine_severity` before the high-confidence count is consulted. -/
theorem claim_C1_counterexample_severity_is_severe :
    containsChars (lowerData scenario_a_text) "depression and anxiety".data = true ∧
    containsChars (lowerData scenario_a_text) "insomnia".data = true ∧
    (map_entities_to_domains (generate_mock_entities scenario_a_text (decimal 6 10))).map
        (fun d => d.domainType) =
      ["PRESENTING_PROBLEM", "BEHAVIORAL_HEALTH_HISTORY"] ∧
    content_value
        ((map_entities_to_domains (generate_mock_entities scenario_a_text
            (decimal 6 10))).getD 0 fallback_presenting_problem).content "severity" =
      some (ContentValue.s "SEVERE") ∧
    ContentValue.s "SEVERE" ≠ ContentValue.s "MODERATE" := by decide

/-- Claim C1 (amended): on the Scenario A text at the default threshold
0.6 the mock recognizer returns exactly the two Diagnosis entities, the
Insomnia Symptom and the Sertraline Medication, and `map_entities_to_domains`
on that list produces a PRESENTING_PROBLEM suggestion whose content
severity is SEVERE together with a BEHAVIORAL_HEALTH_HISTORY suggestion
(in that order, and nothing else). -/
theorem claim_C1_scenario_a_entities_and_domains :
    generate_mock_entities scenario_a_text (decimal 6 10) =
      [mock_mdd, mock_gad, mock_insomnia, mock_sertraline] ∧
    ((generate_mock_entities scenario_a_text (decimal 6 10)).filter
        (fun e => e.type == "Diagnosis")).length = 2 ∧
    ((generate_mock_entities scenario_a_text (decimal 6 10)).filter
        (fun e => e.type == "Symptom")).map (fun e => e.text) = ["Insomnia"] ∧
    ((generate_mock_entities scenario_a_text (decimal 6 10)).filter
        (fun e => e.type == "Medication")).map (fun e => e.text) =
      ["Sertraline 50mg daily"] ∧
    (map_entities_to_domains (generate_mock_entities scenario_a_text (decimal 6 10))).map
        (fun d => d.domainType) =
      ["PRESENTING_PROBLEM", "BEHAVIORAL_HEALTH_HISTORY"] ∧
    content_value
        ((map_entities_to_domains (generate_mock_entities scenario_a_text
            (decimal 6 10))).getD 0 fallback_presenting_problem).content "severity" =
      some (ContentValue.s "SEVERE") := by decide
